import Mathlib

/-!
Shallow embedding of the conversation validation and retry system
(`validation_system.py` of the conversation_generator repository).

Modelling conventions:
- Python strings are Lean `String` (a packed `List Char`); `str.lower`,
  `str.strip`, `str.join`, the substring test `in`, `startswith` and
  `endswith` are modelled character-by-character on `String.data`, which
  coincides with Python's behaviour on the ASCII texts handled here.
- Python floats are modelled as exact rationals.  Every constant the code
  uses (0.2, 0.3, 0.5, 0.6, 0.7, 1.0) and every arithmetic step it performs
  (sums of at most five such scores, divisions, min/max) stays within
  exactly representable binary64 values of small size, so the rational
  model computes the same numbers as the Python runtime.
- A backend callable that may raise is modelled as a function into
  `Option`; `none` models a raised exception.
-/

/-- Result record of conversation validation (the `ValidationResult`
dataclass of `validation_system.py`). -/
structure ValidationResult where
  passed : Bool
  found_tags : List String
  missing_tags : List String
  quality_score : ℚ
  issues : List String
  recommendations : List String
deriving DecidableEq

/-- A single conversation turn: a Python dict with keys "role" and
"content".  The code only ever reads those two keys, with `""` defaults. -/
structure Message where
  role : String
  content : String
deriving DecidableEq

/-- Substring occurrence test on character lists, modelling Python
`needle in hay`. -/
def has_sub (needle : List Char) : List Char → Bool
  | [] => needle.isPrefixOf []
  | c :: rest => needle.isPrefixOf (c :: rest) || has_sub needle rest

/-- Python substring test `needle in hay` on strings. -/
def str_contains (hay needle : String) : Bool :=
  has_sub needle.data hay.data

/-- Python `s.lower()` (ASCII case folding, per character). -/
def py_lower (s : String) : String := ⟨s.data.map Char.toLower⟩

/-- Python `s.startswith(pre)`. -/
def py_startswith (s pre : String) : Bool := pre.data.isPrefixOf s.data

/-- Python `s.endswith(post)`. -/
def py_endswith (s post : String) : Bool := post.data.isSuffixOf s.data

/-- Python `s.strip("()")`: remove leading and trailing parentheses. -/
def py_strip_parens (s : String) : String :=
  ⟨((s.data.dropWhile (fun c => c = '(' || c = ')')).reverse.dropWhile
      (fun c => c = '(' || c = ')')).reverse⟩

/-- Python `s.strip()`: remove leading and trailing whitespace. -/
def py_strip (s : String) : String :=
  ⟨((s.data.dropWhile Char.isWhitespace).reverse.dropWhile
      Char.isWhitespace).reverse⟩

/-- Python `sep.join(parts)`. -/
def py_join (sep : String) : List String → String
  | [] => ""
  | [s] => s
  | s :: rest => s ++ sep ++ py_join sep rest

/-- The nine built-in special tags (`ConversationValidator.__init__`). -/
def special_tags : List String :=
  ["(disconnect)", "(transfer)", "(function_1)", "(function_2)", "(hold)",
   "(mute)", "(conference)", "(callback)", "(escalate)"]

/-- The four quality-indicator categories, in the (insertion-ordered)
order of the Python dict `self.quality_indicators`. -/
def quality_indicators : List (String × List String) :=
  [("agent_professionalism",
    ["good morning", "good afternoon", "good evening", "thank you", "please",
     "may i", "i understand", "i appreciate", "professional", "courteous"]),
   ("debt_collection_terms",
    ["debt", "loan", "payment", "amount", "balance", "due", "overdue",
     "collection", "account"]),
   ("regulatory_compliance",
    ["recorded", "quality purposes", "verify", "confirm", "legal action",
     "credit bureau", "background check"]),
   ("natural_conversation",
    ["how are you", "i see", "i understand", "that\x27s", "well", "actually",
     "really", "sure", "okay"])]

/-- Red-flag strings of `ConversationValidator.__init__` (the unresolved
template braces are written with hex escapes). -/
def red_flags : List String :=
  ["lorem ipsum", "placeholder", "example text", "sample conversation",
   "test message", "[insert", "\x7b\x7b", "\x7d\x7d"]

/-- Python `" ".join(contents).lower()` over the whole conversation, as
rebuilt identically in `_check_indicators`, `_check_red_flags`,
`_check_scenario_specific_issues` and `_generate_recommendations`. -/
def full_text_of (conversation : List Message) : String :=
  py_lower (py_join (" ") (conversation.map (fun m => m.content)))

/-- The loose multi-form tag match performed inside the message loop of
`ConversationValidator._find_special_tags`; `content` is the lowered text. -/
def tag_matches (content tag : String) : Bool :=
  let tag_name := py_strip_parens tag
  str_contains content tag ||
  str_contains content ("<" ++ tag_name ++ ">") ||
  str_contains content (" " ++ tag_name) ||
  str_contains content (tag_name ++ " ") ||
  py_endswith content tag_name ||
  py_startswith content tag_name

/-- The special tags detected in one turn (the inner loop of
`_find_special_tags`). -/
def turn_tags (m : Message) : List String :=
  special_tags.filter (fun tag => tag_matches (py_lower m.content) tag)

/-- `ConversationValidator._find_special_tags`: tags appended over all
turns, then deduplicated (Python `list(set(found_tags))`, modelled as a
deduplicated list in first-occurrence order). -/
def find_special_tags (conversation : List Message) : List String :=
  (conversation.flatMap turn_tags).dedup

/-- `ConversationValidator._check_indicators`. -/
def check_indicators (conversation : List Message) (indicators : List String) : ℚ :=
  let full_text := full_text_of conversation
  let found_count : ℕ :=
    indicators.countP (fun indicator => str_contains full_text indicator)
  min 1.0 ((found_count : ℚ) / max 1 ((indicators.length : ℚ) * 0.3))

/-- `ConversationValidator._check_red_flags`. -/
def check_red_flags (conversation : List Message) : ℚ :=
  let full_text := full_text_of conversation
  let red_flag_count : ℕ := red_flags.countP (fun flag => str_contains full_text flag)
  (red_flag_count : ℚ) * 0.3

/-- `ConversationValidator._check_role_alternation`. -/
def check_role_alternation (roles : List String) : ℚ :=
  if roles = [] then 0.0
  else if roles.headD ("") ≠ "assistant" then 0.5
  else
    let alternation_violations : ℕ :=
      (roles.zip roles.tail).countP (fun p => p.1 == p.2)
    max 0.0 (1.0 - (alternation_violations : ℚ) / (roles.length : ℚ))

/-- `ConversationValidator._check_message_lengths`. -/
def check_message_lengths (conversation : List Message) : ℚ :=
  let lengths := conversation.map (fun m => m.content.length)
  let too_short : ℕ := lengths.countP (fun l => decide (l < 10))
  let too_long : ℕ := lengths.countP (fun l => decide (500 < l))
  let penalty : ℚ := ((too_short + too_long : ℕ) : ℚ) / (lengths.length : ℚ)
  max 0.0 (1.0 - penalty)

/-- `ConversationValidator._check_conversation_structure`. -/
def check_conversation_structure (conversation : List Message) : ℚ :=
  if conversation.length < 3 then 0.2
  else if 30 < conversation.length then 0.7
  else
    let roles := conversation.map (fun m => m.role)
    let alternation_score := check_role_alternation roles
    let length_score := check_message_lengths conversation
    (alternation_score + length_score) / 2

/-- `ConversationValidator._calculate_quality_score`. -/
def calculate_quality_score (conversation : List Message) : ℚ :=
  let scores := quality_indicators.map
    (fun category => check_indicators conversation category.2)
  let red_flag_penalty := check_red_flags conversation
  let structure_score := check_conversation_structure conversation
  let all_scores := scores ++ [structure_score]
  let base_score := all_scores.sum / (all_scores.length : ℚ)
  let final_score := max 0.0 (base_score - red_flag_penalty)
  min 1.0 final_score

/-- `ConversationValidator._check_scenario_specific_issues` (the Python
`elif` chain of substring tests on the scenario id). -/
def check_scenario_specific_issues (conversation : List Message)
    (scenario_type : String) : List String :=
  let full_text := full_text_of conversation
  if str_contains scenario_type ("wrong_person") then
    if !str_contains full_text ("transfer") && !str_contains full_text ("wrong") then
      ["Wrong person scenario should mention transfer or wrong person"]
    else []
  else if str_contains scenario_type ("hostile") then
    if !str_contains full_text ("angry") && !str_contains full_text ("upset") &&
        !str_contains full_text ("frustrated") then
      ["Hostile scenario should show customer anger or frustration"]
    else []
  else if str_contains scenario_type ("payment_willing") then
    if !str_contains full_text ("pay") && !str_contains full_text ("payment") then
      ["Payment willing scenario should discuss payment"]
    else []
  else if str_contains scenario_type ("legal") then
    if !str_contains full_text ("legal") && !str_contains full_text ("attorney") &&
        !str_contains full_text ("lawyer") then
      ["Legal scenario should mention legal terms"]
    else []
  else []

/-- `ConversationValidator._identify_issues`.  An empty `scenario_type`
models the Python default `None` (both falsy). -/
def identify_issues (conversation : List Message) (scenario_type : String) : List String :=
  let empty_messages : ℕ := conversation.countP (fun m => py_strip m.content == "")
  let issues₀ :=
    if 0 < empty_messages then [toString empty_messages ++ (" empty messages found")]
    else []
  let issues₁ := issues₀ ++
    (if conversation.length < 4 then ["Conversation too short (less than 4 exchanges)"]
     else [])
  let first_message := (conversation.headD ⟨"", ""⟩).content
  let issues₂ := issues₁ ++
    (if !str_contains (py_lower first_message) ("cleargrid") &&
        !str_contains (py_lower first_message) ("salma") then
      ["Agent introduction missing or incomplete"]
     else [])
  let last_message := ((conversation.getLast?).map (fun m => m.content)).getD ("")
  let issues₃ := issues₂ ++
    (if last_message.length < 20 then ["Conversation ending seems abrupt"] else [])
  issues₃ ++
    (if scenario_type ≠ "" then check_scenario_specific_issues conversation scenario_type
     else [])

/-- `ConversationValidator._generate_recommendations` (the `issues`
parameter is accepted and ignored, exactly as in the Python body). -/
def generate_recommendations (conversation : List Message)
    (missing_tags : List String) (_issues : List String) : List String :=
  let recs₀ :=
    if missing_tags ≠ [] then
      [("Include required special tags: ") ++ py_join (", ") missing_tags]
    else []
  let recs₁ := recs₀ ++
    (if conversation.length < 4 then ["Extend conversation to at least 4-6 exchanges"]
     else [])
  let recs₂ := recs₁ ++
    (if 20 < conversation.length then ["Consider shortening conversation for better focus"]
     else [])
  let full_text := full_text_of conversation
  let recs₃ := recs₂ ++
    (if !str_contains full_text ("thank you") then ["Add more polite language and courtesy"]
     else [])
  let recs₄ := recs₃ ++
    (if !str_contains full_text ("payment") && !str_contains full_text ("debt") then
      ["Ensure debt collection purpose is clear"]
     else [])
  recs₄ ++
    (if !(["(disconnect)", "(transfer)", "(function_1)", "(function_2)"].any
          (fun tag => str_contains full_text tag)) then
      ["Include appropriate special tags for call handling"]
     else [])

/-- Normalization of a required tag (`validate_conversation`): ensure it is
parenthesized, Python `req_tag if req_tag.startswith('(') else f"({req_tag})"`. -/
def normalize_tag (req_tag : String) : String :=
  if py_startswith req_tag ("(") then req_tag else "(" ++ req_tag ++ ")"

/-- `ConversationValidator.validate_conversation`.  `required_tags = []`
models the Python default `None` (both falsy, and the tag loop is a no-op
on an empty list), `scenario_type = ""` models `None`. -/
def validate_conversation (conversation : List Message)
    (required_tags : List String) (scenario_type : String) : ValidationResult :=
  if conversation = [] then
    { passed := false, found_tags := [], missing_tags := required_tags,
      quality_score := 0.0, issues := ["Empty conversation"],
      recommendations := ["Generate a non-empty conversation"] }
  else
    let found_tags := find_special_tags conversation
    let missing_tags := required_tags.filter
      (fun req_tag => !(found_tags.contains (normalize_tag req_tag)))
    let quality_score := calculate_quality_score conversation
    let issues := identify_issues conversation scenario_type
    let recommendations := generate_recommendations conversation missing_tags issues
    { passed := missing_tags.isEmpty && decide ((0.6 : ℚ) ≤ quality_score) &&
        decide (issues.length ≤ 2),
      found_tags := found_tags, missing_tags := missing_tags,
      quality_score := quality_score, issues := issues,
      recommendations := recommendations }

/-- The failure placeholder
`ValidationResult(False, [], [], 0.0, ["All attempts failed"], [])` returned
by `generate_with_retry` when no attempt ever produced a conversation. -/
def placeholder_result : ValidationResult :=
  ⟨false, [], [], 0.0, ["All attempts failed"], []⟩

/-- `RetryManager._enhance_prompt_based_on_feedback`. -/
def enhance_prompt_based_on_feedback (original_prompt : String)
    (validation_result : ValidationResult) : String :=
  let enhancements :=
    (if validation_result.missing_tags ≠ [] then
      [("CRITICAL: You MUST include these special tags in the conversation: ") ++
        py_join (", ") validation_result.missing_tags]
     else []) ++
    (if validation_result.quality_score < 0.6 then
      ["IMPORTANT: Make the conversation more natural and professional"]
     else []) ++
    (if validation_result.issues.contains ("Conversation too short") then
      ["REQUIREMENT: Generate at least 6-8 message exchanges"]
     else []) ++
    (if validation_result.recommendations ≠ [] then
      [("IMPROVEMENTS NEEDED: ") ++
        py_join ("; ") (validation_result.recommendations.take 3)]
     else [])
  if enhancements ≠ [] then
    original_prompt ++ "\n\n## CRITICAL REQUIREMENTS FOR THIS RETRY:\n" ++
      py_join ("\n") (enhancements.map (fun e => ("- ") ++ e))
  else original_prompt

/-- Observable steps of `RetryManager.generate_with_retry`: backend
invocations (with the exact prompt used), caught backend failures, and
validator invocations. -/
inductive RetryEvent where
  | genOk (prompt : String) (conversation : List Message)
  | genFail (prompt : String)
  | valCall (conversation : List Message) (result : ValidationResult)
deriving DecidableEq

/-- Instrumented embedding of the loop of `RetryManager.generate_with_retry`.
The backend `gen` models `generator_func`: `none` models a raised exception
(caught by the loop), `some` returns the conversation together with its
(unused) found-tag list.  The two `Option` arguments model the Python
locals `conversation` and `validation_result` that persist across
attempts; the `ℕ` argument is the number of remaining loop iterations.
The second component is the event trace of the run. -/
def retry_run (gen : String → Option (List Message × List String))
    (required_tags : List String) (scenario_type : String) :
    ℕ → String → Option (List Message) → Option ValidationResult →
    ((List Message × ValidationResult) × List RetryEvent)
  | 0, _, last_conversation, last_result =>
    ((last_conversation.getD [], last_result.getD placeholder_result), [])
  | n + 1, prompt, last_conversation, last_result =>
    match gen prompt with
    | none =>
      let r := retry_run gen required_tags scenario_type n prompt
        last_conversation last_result
      (r.1, .genFail prompt :: r.2)
    | some (conversation, _found) =>
      let validation_result := validate_conversation conversation required_tags scenario_type
      if validation_result.passed then
        ((conversation, validation_result),
         [.genOk prompt conversation, .valCall conversation validation_result])
      else
        let r := retry_run gen required_tags scenario_type n
          (enhance_prompt_based_on_feedback prompt validation_result)
          (some conversation) (some validation_result)
        (r.1, .genOk prompt conversation :: .valCall conversation validation_result :: r.2)

/-- `RetryManager.generate_with_retry` (returned value only; the Python
constructor defaults `max_retries` to 3). -/
def generate_with_retry (gen : String → Option (List Message × List String))
    (max_retries : ℕ) (prompt : String) (required_tags : List String)
    (scenario_type : String) : List Message × ValidationResult :=
  (retry_run gen required_tags scenario_type max_retries prompt none none).1

/-- Prompts passed to the backend, in order, read off an event trace. -/
def gen_prompts (events : List RetryEvent) : List String :=
  events.filterMap (fun e => match e with
    | .genOk p _ => some p
    | .genFail p => some p
    | .valCall _ _ => none)

/-- Number of backend attempts recorded in a trace. -/
def gen_attempt_count (events : List RetryEvent) : ℕ :=
  (gen_prompts events).length

/-- The conversation produced by the last successful backend call of a
trace, starting from a carried previous conversation. -/
def last_conv_after (lc : Option (List Message)) (events : List RetryEvent) :
    Option (List Message) :=
  events.foldl (fun acc e => match e with
    | .genOk _ c => some c
    | _ => acc) lc

/-! Helper lemmas about the substring-search primitives. -/

/-- Being a prefix is preserved by appending on the right. -/
theorem isPrefixOf_append_ext (x a b : List Char) (h : x.isPrefixOf a = true) :
    x.isPrefixOf (a ++ b) = true := by
  induction x generalizing a with
  | nil => simp
  | cons c cs ih =>
    cases a with
    | nil => simp [List.isPrefixOf] at h
    | cons d ds =>
      simp only [List.isPrefixOf, Bool.and_eq_true] at h
      simp only [List.cons_append, List.isPrefixOf, Bool.and_eq_true]
      exact ⟨h.1, ih ds h.2⟩

/-- Every list is a prefix of itself followed by anything. -/
theorem isPrefixOf_self_append (c b : List Char) : c.isPrefixOf (c ++ b) = true := by
  induction c with
  | nil => simp
  | cons a as ih => simpa [List.isPrefixOf] using ih

/-- The empty needle occurs in every haystack. -/
theorem has_sub_nil_left (l : List Char) : has_sub [] l = true := by
  cases l <;> simp [has_sub, List.isPrefixOf]

/-- Occurrence is preserved by appending on the right of the haystack. -/
theorem has_sub_append_of_left (x a b : List Char) (h : has_sub x a = true) :
    has_sub x (a ++ b) = true := by
  induction a with
  | nil =>
    cases x with
    | nil => exact has_sub_nil_left b
    | cons c cs => simp [has_sub, List.isPrefixOf] at h
  | cons c cs ih =>
    simp only [has_sub, Bool.or_eq_true] at h
    simp only [List.cons_append, has_sub, Bool.or_eq_true]
    cases h with
    | inl h => exact Or.inl (by simpa using isPrefixOf_append_ext x (c :: cs) b h)
    | inr h => exact Or.inr (ih h)

/-- Occurrence is preserved by appending on the left of the haystack. -/
theorem has_sub_append_of_right (x a b : List Char) (h : has_sub x b = true) :
    has_sub x (a ++ b) = true := by
  induction a with
  | nil => simpa
  | cons c cs ih => simp [has_sub, ih]

/-- A needle occurs in itself followed by anything. -/
theorem has_sub_self_append (c b : List Char) : has_sub c (c ++ b) = true := by
  cases c with
  | nil => exact has_sub_nil_left _
  | cons a as => simp [has_sub, isPrefixOf_self_append]

/-- Every string contains itself. -/
theorem str_contains_self (x : String) : str_contains x x = true := by
  have := has_sub_self_append x.data []
  simpa [str_contains] using this

/-- Containment survives appending on the right. -/
theorem str_contains_mono_left {a x : String} (b : String) (h : str_contains a x = true) :
    str_contains (a ++ b) x = true := by
  simpa [str_contains, String.data_append] using
    has_sub_append_of_left x.data a.data b.data (by simpa [str_contains] using h)

/-- Containment survives appending on the left. -/
theorem str_contains_mono_right {b x : String} (a : String) (h : str_contains b x = true) :
    str_contains (a ++ b) x = true := by
  simpa [str_contains, String.data_append] using
    has_sub_append_of_right x.data a.data b.data (by simpa [str_contains] using h)

/-- A member of a joined list occurs in the join. -/
theorem str_contains_py_join {x : String} (sep : String) (l : List String) (hx : x ∈ l) :
    str_contains (py_join sep l) x = true := by
  induction l with
  | nil => cases hx
  | cons y ys ih =>
    cases hx with
    | head =>
      cases ys with
      | nil => exact str_contains_self x
      | cons z zs =>
        show str_contains (x ++ sep ++ py_join sep (z :: zs)) x = true
        exact str_contains_mono_left _ (str_contains_mono_left _ (str_contains_self x))
    | tail _ hmem =>
      cases ys with
      | nil => cases hmem
      | cons z zs =>
        show str_contains (y ++ sep ++ py_join sep (z :: zs)) x = true
        rw [String.append_assoc]
        exact str_contains_mono_right _ (str_contains_mono_right _ (ih hmem))

/-- Containment in the head payload of a joined, prefixed list. -/
theorem str_contains_py_join_head {x e : String} (pre sep : String) (rest : List String)
    (h : str_contains e x = true) :
    str_contains (py_join sep ((pre ++ e) :: rest)) x = true := by
  cases rest with
  | nil => exact str_contains_mono_right pre h
  | cons r rs =>
    show str_contains ((pre ++ e) ++ sep ++ py_join sep (r :: rs)) x = true
    exact str_contains_mono_left _ (str_contains_mono_left _ (str_contains_mono_right pre h))

/-- Disjoint boolean counts add up to the count of the disjunction. -/
theorem countP_or_disjoint {α : Type} (l : List α) (p q : α → Bool)
    (h : ∀ a, p a = true → q a = false) :
    l.countP (fun a => p a || q a) = l.countP p + l.countP q := by
  induction l with
  | nil => rfl
  | cons a as ih =>
    by_cases hp : p a = true
    · have hq := h a hp
      simp [List.countP_cons, hp, hq, ih]
      omega
    · by_cases hq : q a = true <;>
        simp [List.countP_cons, hp, hq, ih] <;> omega

/-! Specification-side formulas, written from the words of the claims, to be
compared with the source embedding. -/

/-- Claim-side indicator-category score (C6): `min(1, distinct indicator
words found / (category size * 0.3))`, with no guard on the denominator. -/
def spec_indicator_score (conversation : List Message) (indicators : List String) : ℚ :=
  min 1 ((indicators.countP
      (fun w => str_contains (full_text_of conversation) w) : ℚ) /
    ((indicators.length : ℚ) * 0.3))

/-- Claim-side number of distinct red-flag strings found (C6). -/
def spec_red_flag_count (conversation : List Message) : ℕ :=
  red_flags.countP (fun flag => str_contains (full_text_of conversation) flag)

/-- Claim-side quality formula (C6): clamp of the mean of the four
indicator-category scores and the structural score, minus 0.3 per distinct
red flag, to [0, 1]. -/
def spec_quality_score (conversation : List Message) : ℚ :=
  let indicator_scores := quality_indicators.map
    (fun category => spec_indicator_score conversation category.2)
  min 1 (max 0 ((indicator_scores.sum + check_conversation_structure conversation) / 5 -
    0.3 * (spec_red_flag_count conversation : ℚ)))

/-- Claim-side structural formula (C7), read literally: the role-alternation
score is 1.0 minus the fraction of adjacent-turn pairs that repeat a role
(repeats divided by the number of adjacent pairs), capped at 0.5 when the
first turn is not the agent. -/
def spec_structure_claim (conversation : List Message) : ℚ :=
  if conversation.length < 3 then 0.2
  else if 30 < conversation.length then 0.7
  else
    let roles := conversation.map (fun m => m.role)
    let repeats : ℕ := (roles.zip roles.tail).countP (fun p => p.1 == p.2)
    let alternation_base : ℚ := 1 - (repeats : ℚ) / ((conversation.length - 1 : ℕ) : ℚ)
    let alternation : ℚ :=
      if roles.headD ("") ≠ "assistant" then min alternation_base 0.5
      else alternation_base
    let length_sanity : ℚ := 1 -
      (conversation.countP (fun m => decide (m.content.length < 10) ||
        decide (500 < m.content.length)) : ℚ) / (conversation.length : ℚ)
    (alternation + length_sanity) / 2

/-- Amended structural formula (C7): when the first turn is not the agent
the alternation score is exactly 0.5 (the repeats are not even computed);
otherwise it is 1.0 minus the number of adjacent-turn role repeats divided
by the total number of turns. -/
def spec_structure_amended (conversation : List Message) : ℚ :=
  if conversation.length < 3 then 0.2
  else if 30 < conversation.length then 0.7
  else
    let roles := conversation.map (fun m => m.role)
    let alternation : ℚ :=
      if roles.headD ("") ≠ "assistant" then 0.5
      else 1 - ((roles.zip roles.tail).countP (fun p => p.1 == p.2) : ℚ) /
        (conversation.length : ℚ)
    let length_sanity : ℚ := 1 -
      (conversation.countP (fun m => decide (m.content.length < 10) ||
        decide (500 < m.content.length)) : ℚ) / (conversation.length : ℚ)
    (alternation + length_sanity) / 2

/-! Concrete conversations used by counterexamples and witnesses. -/

/-- A well-formed seven-turn conversation of the shape described by C9
that does pass validation. -/
def c9good : List Message :=
  [⟨"assistant", "Good morning, this is Salma from ClearGrid. May I please verify your account details? This call is recorded."⟩,
   ⟨"user", "Sure, okay, how are you today? I understand why you are calling."⟩,
   ⟨"assistant", "Thank you. I want to confirm the overdue balance and the amount due on your debt account."⟩,
   ⟨"user", "Well, actually I see the balance is due. I appreciate the details."⟩,
   ⟨"assistant", "Great, a payment plan works. I will log it now (function_1). Thank you for the payment commitment."⟩,
   ⟨"user", "Okay sure, that works for me, thank you."⟩,
   ⟨"assistant", "Thank you for your time, have a good day. Goodbye."⟩]

/-- A seven-turn conversation of the very same shape described by C9 whose
fifth turn additionally carries every red-flag string, so that its quality
score is clamped to 0 and validation fails. -/
def c9bad : List Message :=
  [⟨"assistant", "Hello there, this is Salma from ClearGrid speaking."⟩,
   ⟨"user", "Hello yes speaking."⟩,
   ⟨"assistant", "We are calling regarding your file."⟩,
   ⟨"user", "Go on then sir."⟩,
   ⟨"assistant", "A payment is needed (function_1) lorem ipsum placeholder example text sample conversation test message [insert \x7b\x7b \x7d\x7d end."⟩,
   ⟨"user", "Hmm right okay."⟩,
   ⟨"assistant", "That is all for today then, goodbye to you."⟩]

/-- Three turns, none spoken by the agent, every content of sane length:
the code scores alternation 0.5 flat while the literal C7 formula yields
`min (1 - 2/2) 0.5 = 0`. -/
def c7cex : List Message :=
  [⟨"user", "first message ok"⟩, ⟨"user", "second message ok"⟩,
   ⟨"user", "third message ok"⟩]

/-- A conversation whose verdict fails (three issues) while producing no
prompt enhancement: quality 0.975 ≥ 0.6, no missing tags, no
recommendations (C5 counterexample). -/
def c5bad : List Message :=
  [⟨"assistant", "Thank you, please note the payment amount and debt, I understand. We verify and confirm this recorded call. (function_1)"⟩,
   ⟨"user", " "⟩,
   ⟨"assistant", "Well okay, sure, that is the plan we will follow."⟩,
   ⟨"user", "okay sure yes."⟩]

/-- One-turn conversation containing an upper-case marker spelling. -/
def c8a : List Message := [⟨"assistant", "Please hold on (Function_1) now."⟩]

/-- The same conversation with the marker spelled in lower case. -/
def c8b : List Message := [⟨"assistant", "Please hold on (function_1) now."⟩]

/-- Backend that always fails (raises), for exhaustion witnesses. -/
def c3gen : String → Option (List Message × List String) := fun _ => none

/-- Backend that always returns the passing conversation `c9good`. -/
def c2gen : String → Option (List Message × List String) := fun _ => some (c9good, [])

/-- Backend that always returns the failing conversation `c5bad`. -/
def c5gen : String → Option (List Message × List String) := fun _ => some (c5bad, [])

/-- Backend that always raises, for the C4 witness. -/
def c4gen : String → Option (List Message × List String) := fun _ => none

/-- Backend that always returns a degenerate empty success. -/
def c4gen_empty : String → Option (List Message × List String) := fun _ => some ([], [])

/-! Theorems for the claims. -/

/-- Every tag ever reported found comes from the built-in list. -/
theorem find_special_tags_subset (conversation : List Message) :
    ∀ x ∈ find_special_tags conversation, x ∈ special_tags := by
  intro x hx
  simp only [find_special_tags, List.mem_dedup, List.mem_flatMap, turn_tags,
    List.mem_filter] at hx
  obtain ⟨m, _, hmem, _⟩ := hx
  exact hmem

/-- C1: for every conversation, required-marker list and scenario id, the
verdict has `passed = true` exactly when the missing-marker set is empty,
the quality score is at least 0.6 and at most two issues were reported;
both the empty-conversation early return and the general branch satisfy
this equivalence, so there is no other path to either value of `passed`. -/
theorem c1_pass_policy_iff (conversation : List Message) (required_tags : List String)
    (scenario_type : String) :
    (validate_conversation conversation required_tags scenario_type).passed = true ↔
      ((validate_conversation conversation required_tags scenario_type).missing_tags = [] ∧
       (0.6 : ℚ) ≤ (validate_conversation conversation required_tags scenario_type).quality_score ∧
       (validate_conversation conversation required_tags scenario_type).issues.length ≤ 2) := by
  by_cases h : conversation = []
  · simp only [validate_conversation, if_pos h]
    norm_num
  · simp only [validate_conversation, if_neg h, Bool.and_eq_true, decide_eq_true_eq,
      List.isEmpty_iff]
    tauto

/-- C8: marker detection is a pure function of the conversation (validating
twice yields the same found set), depends only on the case-folded turn
texts (so "(Function_1)" and "(function_1)" spellings are treated
identically), and the found set is the deduplicated union, over all turns,
of the per-turn detections. -/
theorem c8_marker_detection_properties
    (conversation conv₁ conv₂ : List Message) (required_tags : List String)
    (scenario_type : String)
    (h : conv₁.map (fun m => py_lower m.content) = conv₂.map (fun m => py_lower m.content)) :
    (validate_conversation conversation required_tags scenario_type).found_tags =
      (validate_conversation conversation required_tags scenario_type).found_tags ∧
    find_special_tags conv₁ = find_special_tags conv₂ ∧
    (∀ tg, tg ∈ find_special_tags conversation ↔ ∃ m ∈ conversation, tg ∈ turn_tags m) ∧
    (find_special_tags conversation).Nodup := by
  refine ⟨rfl, ?_, ?_, List.nodup_dedup _⟩
  · unfold find_special_tags
    congr 1
    induction conv₁ generalizing conv₂ with
    | nil =>
      cases conv₂ with
      | nil => rfl
      | cons b bs => simp at h
    | cons a as ih =>
      cases conv₂ with
      | nil => simp at h
      | cons b bs =>
        simp only [List.map_cons, List.cons.injEq] at h
        simp only [List.flatMap_cons]
        rw [ih bs h.2]
        congr 1
        unfold turn_tags
        rw [h.1]
  · intro tg
    simp [find_special_tags, List.mem_dedup, List.mem_flatMap]

/-- Witness for C8 at the concrete pair of conversations that differ only
in the capitalisation of "(Function_1)". -/
theorem c8_marker_detection_witness :
    find_special_tags c8a = find_special_tags c8b ∧
    (find_special_tags c8a).Nodup :=
  ⟨(c8_marker_detection_properties c8a c8a c8b [] ""
      (of_decide_eq_true (by with_unfolding_all rfl))).2.1,
   (c8_marker_detection_properties c8a c8a c8b [] ""
      (of_decide_eq_true (by with_unfolding_all rfl))).2.2.2⟩

/-- C10: the found-marker set is always a subset of the nine built-in
special tags; hence a required marker whose normalized bracketed form is
not one of the nine is always reported missing, and such a validation can
never pass. -/
theorem c10_found_tags_subset (conversation : List Message) (required_tags : List String)
    (scenario_type : String) (t : String) (ht : t ∈ required_tags)
    (hn : normalize_tag t ∉ special_tags) :
    (∀ x ∈ (validate_conversation conversation required_tags scenario_type).found_tags,
        x ∈ special_tags) ∧
    t ∈ (validate_conversation conversation required_tags scenario_type).missing_tags ∧
    (validate_conversation conversation required_tags scenario_type).passed = false := by
  by_cases h : conversation = []
  · simp only [validate_conversation, if_pos h]
    exact ⟨fun x hx => absurd hx (List.not_mem_nil x), ht, trivial⟩
  · have hsub := find_special_tags_subset conversation
    have hmiss : t ∈ (validate_conversation conversation required_tags scenario_type).missing_tags := by
      simp only [validate_conversation, if_neg h, List.mem_filter]
      refine ⟨ht, ?_⟩
      simp only [List.contains, Bool.not_eq_eq_eq_not, Bool.not_true,
        List.elem_eq_mem, decide_eq_false_iff_not]
      intro hc
      exact hn (hsub _ hc)
    refine ⟨?_, hmiss, ?_⟩
    · simp only [validate_conversation, if_neg h]
      exact hsub
    · simp only [validate_conversation, if_neg h] at hmiss ⊢
      have hne : (required_tags.filter (fun req_tag =>
          !((find_special_tags conversation).contains (normalize_tag req_tag)))).isEmpty = false := by
        rw [← Bool.not_eq_true, List.isEmpty_iff]
        exact List.ne_nil_of_mem hmiss
      rw [hne]
      rfl

/-- Witness for C10: validating the empty conversation against the
out-of-vocabulary required marker "(bogus)". -/
theorem c10_found_tags_witness :
    (∀ x ∈ (validate_conversation [] ["(bogus)"] "").found_tags, x ∈ special_tags) ∧
    "(bogus)" ∈ (validate_conversation [] ["(bogus)"] "").missing_tags ∧
    (validate_conversation [] ["(bogus)"] "").passed = false :=
  c10_found_tags_subset [] ["(bogus)"] "" "(bogus)" (by simp)
    (of_decide_eq_true (by with_unfolding_all rfl))

/-- C2: from any loop state (any attempt k, any carried locals), if the
backend call on the current prompt succeeds and its verdict passes, the
loop performs exactly one backend invocation and one validator invocation
and returns that attempt's conversation and verdict unchanged; in
particular `generate_with_retry` does so from its initial state. -/
theorem c2_first_success_returns_immediately
    (gen : String → Option (List Message × List String))
    (required_tags : List String) (scenario_type : String) (n : ℕ) (prompt : String)
    (lc : Option (List Message)) (lv : Option ValidationResult)
    (conversation : List Message) (found : List String)
    (hg : gen prompt = some (conversation, found))
    (hp : (validate_conversation conversation required_tags scenario_type).passed = true) :
    retry_run gen required_tags scenario_type (n + 1) prompt lc lv =
      ((conversation, validate_conversation conversation required_tags scenario_type),
       [RetryEvent.genOk prompt conversation,
        RetryEvent.valCall conversation
          (validate_conversation conversation required_tags scenario_type)]) ∧
    generate_with_retry gen (n + 1) prompt required_tags scenario_type =
      (conversation, validate_conversation conversation required_tags scenario_type) := by
  have key : ∀ (lc' : Option (List Message)) (lv' : Option ValidationResult),
      retry_run gen required_tags scenario_type (n + 1) prompt lc' lv' =
        ((conversation, validate_conversation conversation required_tags scenario_type),
         [RetryEvent.genOk prompt conversation,
          RetryEvent.valCall conversation
            (validate_conversation conversation required_tags scenario_type)]) := by
    intro lc' lv'
    simp [retry_run, hg, hp]
  exact ⟨key lc lv, by simp [generate_with_retry, key none none]⟩

set_option maxRecDepth 400000 in
/-- Witness for C2: a backend that always returns the passing conversation
`c9good` makes the loop stop after its first attempt. -/
theorem c2_first_success_witness :
    retry_run c2gen ["(function_1)"] "basic_payment_willing" 1 ("P") none none =
      ((c9good, validate_conversation c9good ["(function_1)"] "basic_payment_willing"),
       [RetryEvent.genOk ("P") c9good,
        RetryEvent.valCall c9good
          (validate_conversation c9good ["(function_1)"] "basic_payment_willing")]) ∧
    generate_with_retry c2gen 1 ("P") ["(function_1)"] "basic_payment_willing" =
      (c9good, validate_conversation c9good ["(function_1)"] "basic_payment_willing") :=
  c2_first_success_returns_immediately c2gen ["(function_1)"] "basic_payment_willing" 0
    ("P") none none c9good [] rfl (of_decide_eq_true (by with_unfolding_all rfl))

/-- C4: a backend failure (a raised exception, `none`) is recorded as a
failure event, consumes exactly one attempt and hands the otherwise
unchanged state to the next attempt with no validator invocation; a
degenerate empty success `some ([], found)`, by contrast, is validated.
The `Option` interface keeps the two signals distinct. -/
theorem c4_backend_failure_skips_validation
    (gen gen' : String → Option (List Message × List String))
    (required_tags : List String) (scenario_type : String) (n : ℕ)
    (p p' : String) (lc lc' : Option (List Message)) (lv lv' : Option ValidationResult)
    (found : List String)
    (h1 : gen p = none) (h2 : gen' p' = some ([], found)) :
    retry_run gen required_tags scenario_type (n + 1) p lc lv =
      ((retry_run gen required_tags scenario_type n p lc lv).1,
       RetryEvent.genFail p :: (retry_run gen required_tags scenario_type n p lc lv).2) ∧
    (∃ rest, (retry_run gen' required_tags scenario_type (n + 1) p' lc' lv').2 =
      RetryEvent.genOk p' [] ::
        RetryEvent.valCall [] (validate_conversation [] required_tags scenario_type) ::
        rest) := by
  constructor
  · simp [retry_run, h1]
  · have hp : (validate_conversation [] required_tags scenario_type).passed = false := rfl
    refine ⟨(retry_run gen' required_tags scenario_type n
        (enhance_prompt_based_on_feedback p'
          (validate_conversation [] required_tags scenario_type))
        (some []) (some (validate_conversation [] required_tags scenario_type))).2, ?_⟩
    simp [retry_run, h2, hp]

/-- Witness for C4 with an always-raising backend and an
always-empty-success backend. -/
theorem c4_backend_failure_witness :
    retry_run c4gen [] "" 1 ("P") none none =
      ((retry_run c4gen [] "" 0 ("P") none none).1,
       RetryEvent.genFail ("P") :: (retry_run c4gen [] "" 0 ("P") none none).2) ∧
    (∃ rest, (retry_run c4gen_empty [] "" 1 ("Q") none none).2 =
      RetryEvent.genOk ("Q") [] ::
        RetryEvent.valCall [] (validate_conversation [] [] "") :: rest) :=
  c4_backend_failure_skips_validation c4gen c4gen_empty [] "" 0 ("P") ("Q")
    none none none none [] rfl rfl

/-- Loop invariant used for C3: under a backend whose conversations never
pass validation, each iteration consumes exactly one backend attempt and
the loop returns the last generated conversation with its failing verdict,
or the carried state (ultimately the placeholder) when nothing was
generated. -/
theorem retry_run_exhaust_aux
    (gen : String → Option (List Message × List String))
    (required_tags : List String) (scenario_type : String)
    (H : ∀ p c f, gen p = some (c, f) →
      (validate_conversation c required_tags scenario_type).passed = false) :
    ∀ (n : ℕ) (prompt : String) (lc : Option (List Message)),
      (∀ c, lc = some c →
        (validate_conversation c required_tags scenario_type).passed = false) →
      gen_attempt_count (retry_run gen required_tags scenario_type n prompt lc
        (lc.map (fun c => validate_conversation c required_tags scenario_type))).2 = n ∧
      (last_conv_after lc (retry_run gen required_tags scenario_type n prompt lc
          (lc.map (fun c => validate_conversation c required_tags scenario_type))).2 = none →
        (retry_run gen required_tags scenario_type n prompt lc
          (lc.map (fun c => validate_conversation c required_tags scenario_type))).1 =
          ([], placeholder_result)) ∧
      (∀ c, last_conv_after lc (retry_run gen required_tags scenario_type n prompt lc
          (lc.map (fun c => validate_conversation c required_tags scenario_type))).2 = some c →
        (retry_run gen required_tags scenario_type n prompt lc
          (lc.map (fun c => validate_conversation c required_tags scenario_type))).1 =
          (c, validate_conversation c required_tags scenario_type)) ∧
      (retry_run gen required_tags scenario_type n prompt lc
        (lc.map (fun c => validate_conversation c required_tags scenario_type))).1.2.passed =
        false := by
  intro n
  induction n with
  | zero =>
    intro prompt lc hlc
    cases lc with
    | none =>
      refine ⟨rfl, fun _ => rfl, ?_, rfl⟩
      intro c hc
      simp [last_conv_after, retry_run] at hc
    | some c0 =>
      refine ⟨rfl, ?_, ?_, hlc c0 rfl⟩
      · intro hnone
        simp [last_conv_after, retry_run] at hnone
      · intro c hc
        simp only [retry_run, last_conv_after, List.foldl_nil] at hc ⊢
        cases hc
        rfl
  | succ n ih =>
    intro prompt lc hlc
    cases hg : gen prompt with
    | none =>
      have heq : retry_run gen required_tags scenario_type (n + 1) prompt lc
          (lc.map (fun c => validate_conversation c required_tags scenario_type)) =
          ((retry_run gen required_tags scenario_type n prompt lc
            (lc.map (fun c => validate_conversation c required_tags scenario_type))).1,
           RetryEvent.genFail prompt ::
            (retry_run gen required_tags scenario_type n prompt lc
              (lc.map (fun c => validate_conversation c required_tags scenario_type))).2) := by
        simp [retry_run, hg]
      obtain ⟨h1, h2, h3, h4⟩ := ih prompt lc hlc
      rw [heq]
      refine ⟨?_, ?_, ?_, h4⟩
      · simp only [gen_attempt_count, gen_prompts, List.filterMap_cons] at h1 ⊢
        simp [h1]
      · intro hnone
        apply h2
        simpa [last_conv_after] using hnone
      · intro c hc
        apply h3
        simpa [last_conv_after] using hc
    | some cf =>
      obtain ⟨c0, f0⟩ := cf
      have hv := H prompt c0 f0 hg
      have heq : retry_run gen required_tags scenario_type (n + 1) prompt lc
          (lc.map (fun c => validate_conversation c required_tags scenario_type)) =
          ((retry_run gen required_tags scenario_type n
              (enhance_prompt_based_on_feedback prompt
                (validate_conversation c0 required_tags scenario_type))
              (some c0) (some (validate_conversation c0 required_tags scenario_type))).1,
           RetryEvent.genOk prompt c0 ::
            RetryEvent.valCall c0 (validate_conversation c0 required_tags scenario_type) ::
            (retry_run gen required_tags scenario_type n
              (enhance_prompt_based_on_feedback prompt
                (validate_conversation c0 required_tags scenario_type))
              (some c0) (some (validate_conversation c0 required_tags scenario_type))).2) := by
        simp [retry_run, hg, hv]
      have hlc' : ∀ c, (some c0 : Option (List Message)) = some c →
          (validate_conversation c required_tags scenario_type).passed = false := by
        intro c hc
        cases hc
        exact hv
      have ihm := ih (enhance_prompt_based_on_feedback prompt
        (validate_conversation c0 required_tags scenario_type)) (some c0) hlc'
      simp only [Option.map_some'] at ihm
      obtain ⟨h1, h2, h3, h4⟩ := ihm
      rw [heq]
      refine ⟨?_, ?_, ?_, h4⟩
      · simp only [gen_attempt_count, gen_prompts, List.filterMap_cons] at h1 ⊢
        simp [h1]
      · intro hnone
        apply h2
        simpa [last_conv_after] using hnone
      · intro c hc
        apply h3
        simpa [last_conv_after] using hc

/-- C3: if the backend never yields a conversation whose verdict passes
(every attempt fails, by backend failure or failed verdict), the loop
terminates after exactly `max_attempts` backend attempts and returns the
final generated conversation paired with its real, non-passing verdict;
the `([], placeholder)` pair is returned only when no attempt ever
produced a conversation.  The loop is a total function, so no exception
escapes it. -/
theorem c3_exhaustion_returns_last_attempt
    (gen : String → Option (List Message × List String))
    (required_tags : List String) (scenario_type : String) (prompt : String) (n : ℕ)
    (H : ∀ p c f, gen p = some (c, f) →
      (validate_conversation c required_tags scenario_type).passed = false) :
    gen_attempt_count (retry_run gen required_tags scenario_type n prompt none none).2 = n ∧
    (last_conv_after none (retry_run gen required_tags scenario_type n prompt none none).2 =
        none →
      (retry_run gen required_tags scenario_type n prompt none none).1 =
        ([], placeholder_result)) ∧
    (∀ c, last_conv_after none
        (retry_run gen required_tags scenario_type n prompt none none).2 = some c →
      (retry_run gen required_tags scenario_type n prompt none none).1 =
        (c, validate_conversation c required_tags scenario_type)) ∧
    (generate_with_retry gen n prompt required_tags scenario_type).2.passed = false := by
  have h := retry_run_exhaust_aux gen required_tags scenario_type H n prompt none
    (fun c hc => Option.noConfusion hc)
  simpa [generate_with_retry] using h

/-- Witness for C3: an always-raising backend with two attempts. -/
theorem c3_exhaustion_witness :
    gen_attempt_count (retry_run c3gen [] "" 2 ("P") none none).2 = 2 ∧
    (last_conv_after none (retry_run c3gen [] "" 2 ("P") none none).2 = none →
      (retry_run c3gen [] "" 2 ("P") none none).1 = ([], placeholder_result)) ∧
    (∀ c, last_conv_after none (retry_run c3gen [] "" 2 ("P") none none).2 = some c →
      (retry_run c3gen [] "" 2 ("P") none none).1 =
        (c, validate_conversation c [] "")) ∧
    (generate_with_retry c3gen 2 ("P") [] "").2.passed = false :=
  c3_exhaustion_returns_last_attempt c3gen [] "" ("P") 2
    (fun _ _ _ h => Option.noConfusion h)

/-- Whenever at least one attempt remains, the next backend call of the
loop uses exactly the current prompt. -/
theorem retry_run_prompts_head
    (gen : String → Option (List Message × List String))
    (required_tags : List String) (scenario_type : String) (n : ℕ) (p : String)
    (lc : Option (List Message)) (lv : Option ValidationResult) :
    ∃ t, gen_prompts (retry_run gen required_tags scenario_type (n + 1) p lc lv).2 =
      p :: t := by
  cases hg : gen p with
  | none =>
    refine ⟨gen_prompts (retry_run gen required_tags scenario_type n p lc lv).2, ?_⟩
    simp [retry_run, hg, gen_prompts, List.filterMap_cons]
  | some cf =>
    obtain ⟨c, f⟩ := cf
    by_cases hp : (validate_conversation c required_tags scenario_type).passed = true
    · refine ⟨[], ?_⟩
      simp [retry_run, hg, hp, gen_prompts, List.filterMap_cons]
    · rw [Bool.not_eq_true] at hp
      refine ⟨gen_prompts (retry_run gen required_tags scenario_type n
        (enhance_prompt_based_on_feedback p
          (validate_conversation c required_tags scenario_type))
        (some c) (some (validate_conversation c required_tags scenario_type))).2, ?_⟩
      simp [retry_run, hg, hp, gen_prompts, List.filterMap_cons]

/-- Amended C5: after a failed verdict with attempts remaining, the next
attempt's backend prompt is exactly the enhancement of the prompt carried
forward from the previous attempt (not of the original), so augmentations
accumulate; and whenever the verdict has at least one missing marker the
enhanced prompt extends the previous one by a block containing the word
"CRITICAL" and every missing marker — in particular "(transfer)" when that
marker is missing.  (With no missing marker, adequate quality and no
recommendations the enhancement can be empty and the prompt is carried
forward unchanged; see the counterexample.) -/
theorem c5_retry_augmentation_amended
    (gen : String → Option (List Message × List String))
    (required_tags : List String) (scenario_type : String) (n : ℕ) (prompt : String)
    (lc : Option (List Message)) (lv : Option ValidationResult)
    (conversation : List Message) (found : List String)
    (hg : gen prompt = some (conversation, found))
    (hf : (validate_conversation conversation required_tags scenario_type).passed = false) :
    (∃ rest, gen_prompts (retry_run gen required_tags scenario_type (n + 2) prompt lc lv).2 =
        prompt ::
          enhance_prompt_based_on_feedback prompt
            (validate_conversation conversation required_tags scenario_type) :: rest) ∧
    ((validate_conversation conversation required_tags scenario_type).missing_tags ≠ [] →
      ∃ block,
        enhance_prompt_based_on_feedback prompt
            (validate_conversation conversation required_tags scenario_type) =
          prompt ++ block ∧
        str_contains block ("CRITICAL") = true ∧
        ∀ t ∈ (validate_conversation conversation required_tags scenario_type).missing_tags,
          str_contains block t = true) := by
  constructor
  · have hstep : retry_run gen required_tags scenario_type (n + 2) prompt lc lv =
        ((retry_run gen required_tags scenario_type (n + 1)
            (enhance_prompt_based_on_feedback prompt
              (validate_conversation conversation required_tags scenario_type))
            (some conversation)
            (some (validate_conversation conversation required_tags scenario_type))).1,
         RetryEvent.genOk prompt conversation ::
          RetryEvent.valCall conversation
            (validate_conversation conversation required_tags scenario_type) ::
          (retry_run gen required_tags scenario_type (n + 1)
            (enhance_prompt_based_on_feedback prompt
              (validate_conversation conversation required_tags scenario_type))
            (some conversation)
            (some (validate_conversation conversation required_tags scenario_type))).2) := by
      show retry_run gen required_tags scenario_type ((n + 1) + 1) prompt lc lv = _
      simp [retry_run, hg, hf]
    obtain ⟨t, ht⟩ := retry_run_prompts_head gen required_tags scenario_type n
      (enhance_prompt_based_on_feedback prompt
        (validate_conversation conversation required_tags scenario_type))
      (some conversation)
      (some (validate_conversation conversation required_tags scenario_type))
    refine ⟨t, ?_⟩
    rw [hstep]
    simp only [gen_prompts, List.filterMap_cons] at ht ⊢
    rw [ht]
  · intro hm
    unfold enhance_prompt_based_on_feedback
    rw [if_pos hm]
    simp only [List.cons_append, List.nil_append]
    rw [if_pos (List.cons_ne_nil _ _)]
    rw [String.append_assoc]
    refine ⟨_, rfl, ?_, ?_⟩
    · exact str_contains_mono_left _ (by rfl)
    · intro t ht
      apply str_contains_mono_right
      simp only [List.map_cons]
      exact str_contains_py_join_head ("- ") ("\n") _
        (str_contains_mono_right _ (str_contains_py_join (", ") _ ht))

set_option maxRecDepth 400000 in
/-- Witness for the amended C5: a first attempt returning `c5bad` against
required marker "(transfer)" fails with that marker missing, and the
second attempt's prompt is the first one extended by a block naming
"(transfer)" under a CRITICAL heading. -/
theorem c5_retry_augmentation_witness :
    (∃ rest, gen_prompts (retry_run c5gen ["(transfer)"] "" 2 ("P") none none).2 =
        ("P") ::
          enhance_prompt_based_on_feedback ("P")
            (validate_conversation c5bad ["(transfer)"] "") :: rest) ∧
    ((validate_conversation c5bad ["(transfer)"] "").missing_tags ≠ [] →
      ∃ block,
        enhance_prompt_based_on_feedback ("P")
            (validate_conversation c5bad ["(transfer)"] "") =
          ("P") ++ block ∧
        str_contains block ("CRITICAL") = true ∧
        ∀ t ∈ (validate_conversation c5bad ["(transfer)"] "").missing_tags,
          str_contains block t = true) :=
  c5_retry_augmentation_amended c5gen ["(transfer)"] "" 0 ("P") none none c5bad [] rfl
    (of_decide_eq_true (by with_unfolding_all rfl))

set_option maxRecDepth 400000 in
/-- Counterexample to C5 as stated: `c5bad` validated with no required
markers fails (three issues) with quality 0.975 ≥ 0.6, an empty missing
set and no recommendations, so the enhancement step appends nothing and
the second attempt's prompt equals the first attempt's prompt with no
retry-requirements block. -/
theorem c5_no_augmentation_counterexample :
    (validate_conversation c5bad [] "").passed = false ∧
    (validate_conversation c5bad [] "").issues.length = 3 ∧
    (validate_conversation c5bad [] "").missing_tags = [] ∧
    (validate_conversation c5bad [] "").recommendations = [] ∧
    (0.6 : ℚ) ≤ (validate_conversation c5bad [] "").quality_score ∧
    enhance_prompt_based_on_feedback ("PROMPT") (validate_conversation c5bad [] "") =
      ("PROMPT") ∧
    gen_prompts (retry_run c5gen [] "" 2 ("PROMPT") none none).2 =
      ["PROMPT", "PROMPT"] :=
  of_decide_eq_true (by with_unfolding_all rfl)

/-- The denominator guard `max(1, size * 0.3)` never binds once the
category satisfies `1 ≤ size * 0.3`. -/
theorem check_indicators_eq_spec (conversation : List Message) (indicators : List String)
    (h : 1 ≤ (indicators.length : ℚ) * 0.3) :
    check_indicators conversation indicators =
      spec_indicator_score conversation indicators := by
  unfold check_indicators spec_indicator_score
  rw [max_eq_right h]
  norm_num

/-- C6: on every non-empty conversation the quality score equals the
claim's formula — the clamp to [0,1] of the mean of the four
indicator-category scores (each `min(1, found/(size*0.3))`) and the
structural score, minus 0.3 per distinct red flag found — and the score
always lies in [0, 1]. -/
theorem c6_quality_score_formula (conversation : List Message)
    (h : conversation ≠ []) :
    calculate_quality_score conversation = spec_quality_score conversation ∧
    0 ≤ calculate_quality_score conversation ∧
    calculate_quality_score conversation ≤ 1 := by
  refine ⟨?_, ?_, ?_⟩
  · unfold calculate_quality_score spec_quality_score check_red_flags spec_red_flag_count
    simp only [quality_indicators, List.map_cons, List.map_nil]
    rw [check_indicators_eq_spec _ _ (by norm_num [List.length_cons]),
        check_indicators_eq_spec _ _ (by norm_num [List.length_cons]),
        check_indicators_eq_spec _ _ (by norm_num [List.length_cons]),
        check_indicators_eq_spec _ _ (by norm_num [List.length_cons])]
    simp only [List.sum_cons, List.sum_nil, List.append_assoc, List.cons_append,
      List.nil_append, List.length_cons, List.length_nil]
    norm_num
    ring_nf
  · unfold calculate_quality_score
    exact le_min (by norm_num) (le_trans (by norm_num) (le_max_left _ _))
  · exact le_trans (min_le_left _ _) (by norm_num)

/-- Witness for C6 at a one-turn conversation. -/
theorem c6_quality_score_witness :
    calculate_quality_score [⟨"assistant", "hello there my friend"⟩] =
      spec_quality_score [⟨"assistant", "hello there my friend"⟩] ∧
    0 ≤ calculate_quality_score [⟨"assistant", "hello there my friend"⟩] ∧
    calculate_quality_score [⟨"assistant", "hello there my friend"⟩] ≤ 1 :=
  c6_quality_score_formula [⟨"assistant", "hello there my friend"⟩] (by simp)

/-- On a non-empty conversation the length-sanity guard `max(0, ...)`
never binds: the score is 1 minus the fraction of turns shorter than 10
or longer than 500 characters. -/
theorem check_message_lengths_sane (conversation : List Message)
    (hpos : 0 < conversation.length) :
    check_message_lengths conversation =
      1 - (conversation.countP (fun m => decide (m.content.length < 10) ||
        decide (500 < m.content.length)) : ℚ) / (conversation.length : ℚ) := by
  have hdisj : ∀ m : Message, (fun m : Message => decide (m.content.length < 10)) m = true →
      (fun m : Message => decide (500 < m.content.length)) m = false := by
    intro m hm
    simp only [decide_eq_true_eq] at hm
    simp only [decide_eq_false_iff_not]
    omega
  have hcount : conversation.countP (fun m => decide (m.content.length < 10) ||
        decide (500 < m.content.length)) =
      (conversation.map (fun m => m.content.length)).countP (fun l => decide (l < 10)) +
      (conversation.map (fun m => m.content.length)).countP (fun l => decide (500 < l)) := by
    rw [List.countP_map, List.countP_map,
      countP_or_disjoint conversation (fun m => decide (m.content.length < 10))
        (fun m => decide (500 < m.content.length)) hdisj]
    rfl
  have hle : (conversation.map (fun m => m.content.length)).countP (fun l => decide (l < 10)) +
      (conversation.map (fun m => m.content.length)).countP (fun l => decide (500 < l)) ≤
      conversation.length := by
    rw [← hcount]
    exact List.countP_le_length _
  simp only [check_message_lengths]
  rw [hcount, List.length_map]
  have hn : (0 : ℚ) < (conversation.length : ℚ) := by exact_mod_cast hpos
  have hfrac : (((conversation.map (fun m => m.content.length)).countP
        (fun l => decide (l < 10)) +
      (conversation.map (fun m => m.content.length)).countP
        (fun l => decide (500 < l)) : ℕ) : ℚ) / (conversation.length : ℚ) ≤ 1 := by
    rw [div_le_one hn]
    exact_mod_cast hle
  rw [max_eq_right (by linarith)]
  norm_num

/-- On a non-empty role list starting with the agent, the alternation
guard `max(0, ...)` never binds: the score is 1 minus the repeat count
divided by the number of roles. -/
theorem check_role_alternation_agent (roles : List String) (hne : roles ≠ [])
    (hhead : roles.headD ("") = "assistant") :
    check_role_alternation roles =
      1 - ((roles.zip roles.tail).countP (fun p => p.1 == p.2) : ℚ) /
        (roles.length : ℚ) := by
  simp only [check_role_alternation]
  rw [if_neg hne, if_neg (not_not_intro hhead)]
  have hposn : 0 < roles.length := List.length_pos.mpr hne
  have hle : (roles.zip roles.tail).countP (fun p => p.1 == p.2) ≤ roles.length := by
    refine le_trans (List.countP_le_length _) ?_
    rw [List.length_zip]
    exact Nat.min_le_left _ _
  have hq : (((roles.zip roles.tail).countP (fun p => p.1 == p.2) : ℕ) : ℚ) /
      (roles.length : ℚ) ≤ 1 := by
    rw [div_le_one (by exact_mod_cast hposn)]
    exact_mod_cast hle
  rw [max_eq_right (by linarith)]
  norm_num

/-- Amended C7: the structural score is 0.2 under 3 turns, 0.7 over 30
turns, and otherwise the average of (a) an alternation score that is
exactly 0.5 whenever the first turn is not the agent and otherwise 1.0
minus the number of adjacent-turn role repeats divided by the total
number of turns, and (b) the length-sanity score of the claim. -/
theorem c7_structure_amended (conversation : List Message) :
    check_conversation_structure conversation = spec_structure_amended conversation := by
  simp only [check_conversation_structure, spec_structure_amended]
  by_cases h3 : conversation.length < 3
  · rw [if_pos h3, if_pos h3]
  · rw [if_neg h3, if_neg h3]
    by_cases h30 : 30 < conversation.length
    · rw [if_pos h30, if_pos h30]
    · rw [if_neg h30, if_neg h30]
      have hpos : 0 < conversation.length := by omega
      have hne : conversation.map (fun m => m.role) ≠ [] := by
        intro he
        rw [List.map_eq_nil_iff] at he
        subst he
        simp at hpos
      by_cases hhead : (conversation.map (fun m => m.role)).headD ("") = "assistant"
      · rw [if_neg (not_not_intro hhead)]
        rw [check_role_alternation_agent _ hne hhead,
          check_message_lengths_sane _ hpos, List.length_map]
      · rw [if_pos hhead]
        simp only [check_role_alternation]
        rw [if_neg hne, if_pos hhead, check_message_lengths_sane _ hpos]

/-- Counterexample to C7 as stated: for three sane-length turns all spoken
by the customer, the code's structural score is 3/4 (flat 0.5 alternation
plus perfect length score, averaged) while the claim's literal formula —
1 minus the fraction of adjacent pairs that repeat, capped at 0.5 —
yields 1/2. -/
theorem c7_structure_counterexample :
    check_conversation_structure c7cex = 3/4 ∧
    spec_structure_claim c7cex = 1/2 ∧
    check_conversation_structure c7cex ≠ spec_structure_claim c7cex :=
  of_decide_eq_true (by with_unfolding_all rfl)

set_option maxRecDepth 400000 in
/-- Amended C9: there is a conversation of 7 alternating turns starting
with the agent, whose first turn contains "this is Salma from ClearGrid"
and whose fifth turn mentions "payment" and "(function_1)", that validates
against required markers ["(function_1)"] and scenario id
"basic_payment_willing" with `passed = true`, an empty missing set and a
quality score of at least 0.6 — witnessed by `c9good` (the property holds
for such well-formed conversations, but not for every conversation of
that shape; see the counterexample). -/
theorem c9_scenario_amended :
    c9good.length = 7 ∧
    c9good.map (fun m => m.role) =
      ["assistant", "user", "assistant", "user", "assistant", "user", "assistant"] ∧
    str_contains (c9good.headD ⟨"", ""⟩).content ("this is Salma from ClearGrid") = true ∧
    str_contains (c9good.getD 4 ⟨"", ""⟩).content ("payment") = true ∧
    str_contains (c9good.getD 4 ⟨"", ""⟩).content ("(function_1)") = true ∧
    (validate_conversation c9good ["(function_1)"] "basic_payment_willing").passed = true ∧
    (validate_conversation c9good ["(function_1)"] "basic_payment_willing").missing_tags =
      [] ∧
    (0.6 : ℚ) ≤
      (validate_conversation c9good ["(function_1)"] "basic_payment_willing").quality_score :=
  of_decide_eq_true (by with_unfolding_all rfl)

set_option maxRecDepth 400000 in
/-- Counterexample to C9 as stated: `c9bad` is also a conversation of 7
alternating turns starting with the agent, whose first turn contains
"this is Salma from ClearGrid" and whose fifth turn mentions "payment" and
"(function_1)", yet validating it against ["(function_1)"] and
"basic_payment_willing" yields `passed = false` with quality score 0
(its fifth turn also contains every red-flag string), so the universally
quantified claim fails. -/
theorem c9_scenario_counterexample :
    c9bad.length = 7 ∧
    c9bad.map (fun m => m.role) =
      ["assistant", "user", "assistant", "user", "assistant", "user", "assistant"] ∧
    str_contains (c9bad.headD ⟨"", ""⟩).content ("this is Salma from ClearGrid") = true ∧
    str_contains (c9bad.getD 4 ⟨"", ""⟩).content ("payment") = true ∧
    str_contains (c9bad.getD 4 ⟨"", ""⟩).content ("(function_1)") = true ∧
    (validate_conversation c9bad ["(function_1)"] "basic_payment_willing").passed = false ∧
    (validate_conversation c9bad ["(function_1)"] "basic_payment_willing").quality_score =
      0 :=
  of_decide_eq_true (by with_unfolding_all rfl)
